import Mathlib

/-!
Verification of the LEDMatrix sports-display core: the game-record
extraction/classification logic, the Recent/Upcoming selection filters, the
rotation state machine of the display slots, and the season-schedule fetch
dispatch with its in-flight deduplication, as implemented in
`src/display_functions.py`, `src/nfl_managers.py`, `src/ncaa_fb_managers.py`,
`src/nba_managers.py` and `src/base_classes/baseball.py`.

Timestamps are modelled as `Int` seconds (Python `datetime` values compared
with `<=`); the result of `datetime.fromisoformat` on the vendor date string
is modelled as an `Option Int` carried by the event (`some t` when the parse
succeeds, `none` when it raises `ValueError`, which the source catches and
leaves `start_time_utc = None`).
-/

namespace LEDMatrix

/-- Vendor status type object: the `competitions[0]["status"]["type"]` dict
with its `state` and `name` strings (`Football._extract_game_details`). -/
structure StatusType where
  state : String
  name : String
  deriving DecidableEq, Repr

/-- Vendor competition status: `competitions[0]["status"]`. -/
structure GameStatus where
  type : StatusType
  period : Nat := 0
  displayClock : String := "0:00"
  deriving DecidableEq, Repr

/-- One entry of `competitions[0]["competitors"]`. -/
structure Competitor where
  homeAway : String
  id : String
  abbreviation : String
  score : String := "0"
  deriving DecidableEq, Repr

/-- The `competitions[0]` object of a vendor event. -/
structure Competition where
  status : GameStatus
  competitors : List Competitor
  deriving DecidableEq, Repr

/-- A vendor event (`game_event`).  `date` holds the result of parsing
`game_event["date"]` with `datetime.fromisoformat` (`none` models a
`ValueError`).  An empty `competitions` list models the vendor payload on
which `game_event["competitions"][0]` raises. -/
structure GameEvent where
  id : String
  date : Option Int
  competitions : List Competition
  deriving DecidableEq, Repr

/-- The normalized game record built by `Football._extract_game_details`
(`src/display_functions.py` lines 1150-1183).  Presentation-only fields
(logo paths, formatted date/time strings, records, timeouts, down/distance,
possession, scoring events) are not carried because no claim mentions them. -/
structure GameDetails where
  id : String
  start_time_utc : Option Int
  is_live : Bool
  is_final : Bool
  is_upcoming : Bool
  is_halftime : Bool
  home_abbr : String
  away_abbr : String
  home_id : String
  away_id : String
  home_score : String
  away_score : String
  period : Nat
  deriving DecidableEq, Repr

/-- Python `str.lower()` on a status name, implemented structurally
(character-wise `Char.toLower`; the vendor status names are ASCII). -/
def strToLower (s : String) : String := String.mk (s.data.map Char.toLower)

/-- The lower-cased status names accepted by the `is_upcoming` fallback:
`status["type"]["name"].lower() in ['scheduled', 'pre-game', 'status_scheduled']`. -/
def scheduledStatusNames : List String := ["scheduled", "pre-game", "status_scheduled"]

/-- The body of the `try:` block of `Football._extract_game_details`
(`src/display_functions.py` lines 1024-1192).  `.error` models an exception
escaping the body (here: the `IndexError` from `game_event["competitions"][0]`
on an event without competitions); `.ok none` models the explicit
`return None` paths (missing home/away competitor, empty abbreviation). -/
def extractGameDetailsBody (e : GameEvent) : Except String (Option GameDetails) :=
  match e.competitions with
  | [] => .error "IndexError: list index out of range"
  | competition :: _ =>
    let status := competition.status
    let competitors := competition.competitors
    let homeTeam? := competitors.find? (fun c => c.homeAway == "home")
    let awayTeam? := competitors.find? (fun c => c.homeAway == "away")
    match homeTeam?, awayTeam? with
    | some homeTeam, some awayTeam =>
      let details : GameDetails :=
        { id := e.id
          start_time_utc := e.date
          is_live := status.type.state == "in"
          is_final := status.type.state == "post"
          is_upcoming :=
            (status.type.state == "pre") ||
              scheduledStatusNames.contains (strToLower status.type.name)
          is_halftime :=
            (status.type.state == "halftime") ||
              (status.type.name == "STATUS_HALFTIME")
          home_abbr := homeTeam.abbreviation
          away_abbr := awayTeam.abbreviation
          home_id := homeTeam.id
          away_id := awayTeam.id
          home_score := homeTeam.score
          away_score := awayTeam.score
          period := status.period }
      if details.home_abbr.isEmpty || details.away_abbr.isEmpty then .ok none
      else .ok (some details)
    | _, _ => .ok none

/-- `Football._extract_game_details`: the surrounding
`except Exception: ... return None` turns any exception from the body into
`None` (`src/display_functions.py` lines 1193-1196). -/
def extractGameDetails (e : GameEvent) : Option GameDetails :=
  match extractGameDetailsBody e with
  | .ok r => r
  | .error _ => none

/-- Exactly one of three booleans is set. -/
def exactlyOneOf (a b c : Bool) : Bool :=
  (a && !b && !c) || (!a && b && !c) || (!a && !b && c)

/-! ### Recent-slot filter (`SportsRecent.update`, lines 749-763) -/

/-- The cutoff `recent_cutoff = now - timedelta(days=21)` in seconds. -/
def recentCutoff (now : Int) : Int := now - 21 * 86400

/-- The per-game admission test of the `SportsRecent.update` loop:
`game['is_final']` and `game_time and game_time >= recent_cutoff`.  A game
whose `start_time_utc` is `None` fails the truthiness test `game_time and ...`
and is dropped. -/
def recentKeep (now : Int) (g : GameDetails) : Bool :=
  g.is_final &&
    (match g.start_time_utc with
     | some t => decide (recentCutoff now ≤ t)
     | none => false)

/-- The `processed_games` list built by the `SportsRecent.update` event loop:
extract each event, keep the extracted finals inside the 21-day window. -/
def recentProcessedGames (now : Int) (events : List GameEvent) : List GameDetails :=
  (events.filterMap extractGameDetails).filter (recentKeep now)

/-! ### Upcoming-slot favorite-team selection (`SportsUpcoming.update`, lines 457-483) -/

/-- The comparison realised by Python's stable `list.sort` with
`key=lambda g: g.get('start_time_utc') or datetime.max...`: a game with a
missing start time compares as `datetime.max`, i.e. after every real
timestamp, so unknown start times sort last. -/
def sortKeyLE (a b : GameDetails) : Bool :=
  match a.start_time_utc, b.start_time_utc with
  | some x, some y => decide (x ≤ y)
  | some _, none => true
  | none, some _ => false
  | none, none => true

/-- `[game for game in favorite_team_games if game['home_abbr'] == team or game['away_abbr'] == team]`. -/
def gamesOfTeam (team : String) (games : List GameDetails) : List GameDetails :=
  games.filter (fun g => g.home_abbr == team || g.away_abbr == team)

/-- `[game for game in processed_games if game['home_abbr'] in self.favorite_teams or game['away_abbr'] in self.favorite_teams]`. -/
def favoriteTeamGames (favoriteTeams : List String) (processed : List GameDetails) : List GameDetails :=
  processed.filter (fun g =>
    favoriteTeams.contains g.home_abbr || favoriteTeams.contains g.away_abbr)

/-- The `for team in self.favorite_teams:` loop: for each favorite team,
sort that team's games by start time (stable, unknown last) and take the
first, skipping teams without games. -/
def selectEarliestPerTeam (favoriteTeams : List String) (favGames : List GameDetails) :
    List GameDetails :=
  favoriteTeams.filterMap (fun team =>
    ((gamesOfTeam team favGames).mergeSort sortKeyLE).head?)

/-- Lines 457-483 of `SportsUpcoming.update`: with
`show_favorite_teams_only` set, one earliest upcoming game per favorite team,
sorted by start time; otherwise all upcoming games sorted by start time and
truncated to `upcoming_games_to_show`. -/
def upcomingSelection (showFavoritesOnly : Bool) (favoriteTeams : List String)
    (processed : List GameDetails) (upcomingGamesToShow : Nat) : List GameDetails :=
  if showFavoritesOnly then
    (selectEarliestPerTeam favoriteTeams (favoriteTeamGames favoriteTeams processed)).mergeSort
      sortKeyLE
  else
    (processed.mergeSort sortKeyLE).take upcomingGamesToShow

/-! ### Rotation state machine (`SportsUpcoming.update` lines 493-518,
`SportsRecent.update` lines 807-835, `SportsUpcoming.display` lines 680-709) -/

/-- The per-slot rotation state: `self.games_list`,
`self.current_game_index`, `self.current_game`, `self.last_game_switch`. -/
structure RotationState where
  games_list : List GameDetails
  current_game_index : Nat
  current_game : Option GameDetails
  last_game_switch : Int
  deriving DecidableEq, Repr

/-- Id projection used by the set comparisons. -/
def gameIds (l : List GameDetails) : List String := l.map (fun g => g.id)

/-- Python set equality on the two id collections:
`{g['id'] for g in team_games} == {g['id'] for g in self.games_list}`. -/
def idSetEq (a b : List String) : Bool :=
  a.all (fun x => b.contains x) && b.all (fun x => a.contains x)

/-- The tail of `SportsUpcoming.update` (lines 493-518) and of
`SportsRecent.update` (lines 807-835), applied to the freshly computed
`team_games` list at wall-clock time `now`:

* if the id set changed, install the new list; reset index/current/timer when
  there is no current game, the new list is empty, or the current id vanished;
  otherwise re-locate the current game by id (`next(i for i, g in ...)`),
  keeping the switch timer (the unreachable `StopIteration` fallback resets);
* if the id set is unchanged and the list is non-empty, refresh
  `current_game` from `games_list[current_game_index]` (an out-of-range index
  would raise `IndexError`, which the surrounding `except` swallows leaving
  the state untouched);
* finally, `if not self.games_list: self.current_game = None`. -/
def applyGamesListCore (s : RotationState) (teamGames : List GameDetails) (now : Int) :
    RotationState :=
  if idSetEq (gameIds teamGames) (gameIds s.games_list) then
    if s.games_list.isEmpty then s
    else
      match s.games_list[s.current_game_index]? with
      | some g => { s with current_game := some g }
      | none => s
  else
    match s.current_game with
    | none =>
      { games_list := teamGames, current_game_index := 0,
        current_game := teamGames.head?, last_game_switch := now }
    | some cg =>
      if teamGames.isEmpty || !((gameIds teamGames).contains cg.id) then
        { games_list := teamGames, current_game_index := 0,
          current_game := teamGames.head?, last_game_switch := now }
      else
        match teamGames.findIdx? (fun g => g.id == cg.id) with
        | some i =>
          { games_list := teamGames, current_game_index := i,
            current_game := teamGames[i]?, last_game_switch := s.last_game_switch }
        | none =>
          { games_list := teamGames, current_game_index := 0,
            current_game := teamGames.head?, last_game_switch := now }

/-- The full tail of `update`: the branch above followed by the trailing
`if not self.games_list: self.current_game = None`. -/
def applyGamesList (s : RotationState) (teamGames : List GameDetails) (now : Int) :
    RotationState :=
  if (applyGamesListCore s teamGames now).games_list.isEmpty then
    { applyGamesListCore s teamGames now with current_game := none }
  else applyGamesListCore s teamGames now

/-- The state mutation of `SportsUpcoming.display` / `SportsRecent.display`:
clear `current_game` when the list is empty, otherwise advance cyclically
once `game_display_duration` seconds have elapsed since the last switch. -/
def displayStep (s : RotationState) (now duration : Int) : RotationState :=
  if s.games_list.isEmpty then { s with current_game := none }
  else if decide (1 < s.games_list.length) && decide (duration ≤ now - s.last_game_switch) then
    let i := (s.current_game_index + 1) % s.games_list.length
    { games_list := s.games_list, current_game_index := i,
      current_game := s.games_list[i]?, last_game_switch := now }
  else s

/-- The no-data branch shared by `SportsUpcoming.update` (lines 377-382),
`SportsRecent.update` (lines 740-743), `FootballLive.update` (lines
1359-1365) and `BaseBallLive.update` (lines 248-254): when the fetch returns
`None` or a payload without `events`, keep everything if a game list was
held, and clear `current_game` only when none was (`games_list` stands for
`live_games` in the live managers). -/
def noDataStep (s : RotationState) : RotationState :=
  if s.games_list.isEmpty then { s with current_game := none } else s

/-- Coherence of the rotation state: an empty list shows nothing, a
non-empty list shows exactly the entry at the current index. -/
def coherent (s : RotationState) : Prop :=
  (s.games_list = [] → s.current_game = none) ∧
  (s.games_list ≠ [] →
    s.current_game_index < s.games_list.length ∧
    s.current_game = s.games_list[s.current_game_index]?)

instance decidableCoherent (s : RotationState) : Decidable (coherent s) := by
  unfold coherent
  infer_instance

/-! ### Season-schedule fetch dispatch (`BaseNFLManager._fetch_nfl_api_data`,
`BaseNCAAFBManager._fetch_ncaa_fb_api_data`, `BaseNBAManager._fetch_data`) -/

/-- Externally visible effects of one `_fetch_*_api_data` / `_fetch_data`
call.  `submitSeasonFetch` is `background_service.submit_fetch_request`,
`spawnSeasonThread` is the `threading.Thread(...).start()` of
`_start_background_schedule_fetch`, `immediateWindowFetch a b` is the
synchronous scoreboard GET for the date range from `now + a` days to
`now + b` days, `todaysGamesFetch` is the current-day-only GET of
`_fetch_todays_games`, and `syncSeasonFetch` is the blocking season GET of
`_fetch_nfl_api_data_sync`. -/
inductive FetchAction where
  | cacheRead (key : String)
  | cacheDelete (key : String)
  | submitSeasonFetch (sport : String) (year : Int)
  | spawnSeasonThread (year : Int)
  | immediateWindowFetch (startOffsetDays endOffsetDays : Int)
  | todaysGamesFetch
  | syncSeasonFetch (year : Int)
  deriving DecidableEq, Repr

/-- An action that starts a season-scale fetch (a new network call for the
full season schedule), as opposed to cache traffic or narrow-window calls. -/
def isSeasonStart : FetchAction → Bool
  | .submitSeasonFetch _ _ => true
  | .spawnSeasonThread _ => true
  | .syncSeasonFetch _ => true
  | _ => false

/-- A read of the season cache. -/
def isCacheRead : FetchAction → Bool
  | .cacheRead _ => true
  | _ => false

/-- A cached or fetched payload: `_fetch_nfl_api_data` validates a dict with
an `events` key, tolerates the legacy bare-list format, and treats anything
else as invalid (clearing the cache entry). -/
inductive Payload where
  | withEvents (events : List GameEvent)
  | bareList (events : List GameEvent)
  | invalid
  deriving DecidableEq, Repr

/-- `FetchResult` as read back through `background_service.get_result`. -/
structure BgFetchResult where
  success : Bool
  data : Payload
  deriving DecidableEq, Repr

/-- The per-key request-tracking state of `BaseNFLManager`: whether
`season_year in self.background_fetch_requests`, and what
`get_result(request_id)` currently returns for the tracked request
(`none` while the fetch is still in flight). -/
structure NFLState where
  tracked : Bool
  result : Option BgFetchResult
  deriving DecidableEq, Repr

/-- The environment one `_fetch_nfl_api_data` call runs against: whether the
background service is enabled, the current cache content for the season key,
and the payloads the two synchronous HTTP calls would deliver (`none` models
a `requests` exception or an empty event list, both of which the source
turns into `None`). -/
structure NFLEnv where
  backgroundEnabled : Bool
  cached : Option Payload
  immediate : Option (List GameEvent)
  syncResp : Option (List GameEvent)
  deriving DecidableEq, Repr

/-- `BaseNFLManager._get_partial_nfl_data`: a synchronous scoreboard GET for
`now - 1 day` through `now + 7 days`, returning the events when non-empty. -/
def getPartialNFLData (env : NFLEnv) : Option (List GameEvent) × List FetchAction :=
  (env.immediate, [FetchAction.immediateWindowFetch (-1) 7])

/-- `BaseNFLManager._fetch_nfl_api_data_sync`: the blocking full-season GET
used when the background service is disabled. -/
def nflApiDataSync (env : NFLEnv) (year : Int) :
    Option (List GameEvent) × List FetchAction :=
  (env.syncResp, [FetchAction.syncSeasonFetch year])

/-- `BaseNFLManager._fetch_nfl_api_data` (`src/nfl_managers.py` lines
47-150) as a function of the request-tracking state and environment,
returning the delivered events, the new tracking state and the emitted
actions:

1. with `use_cache`, a valid cache hit (dict-with-events or legacy list) is
   returned immediately; an invalid entry is deleted;
2. with the background service disabled, fall back to the synchronous fetch;
3. if a request for the season key is already tracked: a successful result is
   returned (after shape validation), a failed result is dropped from the
   tracking table and a fresh background fetch is submitted, and a still
   in-flight request makes the call return the partial immediate-window data
   without submitting anything;
4. otherwise submit a background fetch, track it, and return the partial
   immediate-window data. -/
def nflApiData (useCache : Bool) (st : NFLState) (env : NFLEnv) (year : Int) :
    Option (List GameEvent) × NFLState × List FetchAction :=
  let key := "nfl_schedule_" ++ toString year
  let cacheActs : List FetchAction :=
    if useCache then
      match env.cached with
      | some .invalid => [.cacheRead key, .cacheDelete key]
      | _ => [.cacheRead key]
    else []
  match useCache, env.cached with
  | true, some (.withEvents evs) => (some evs, st, cacheActs)
  | true, some (.bareList evs) => (some evs, st, cacheActs)
  | _, _ =>
    if !env.backgroundEnabled then
      let p := nflApiDataSync env year
      (p.1, st, cacheActs ++ p.2)
    else
      match st.tracked, st.result with
      | true, some r =>
        if r.success then
          match r.data with
          | .withEvents evs => (some evs, st, cacheActs)
          | .bareList evs => (some evs, st, cacheActs)
          | .invalid => (none, st, cacheActs)
        else
          let p := getPartialNFLData env
          (p.1, { tracked := true, result := none },
            cacheActs ++ [.submitSeasonFetch "nfl" year] ++ p.2)
      | true, none =>
        let p := getPartialNFLData env
        (p.1, st, cacheActs ++ p.2)
      | false, _ =>
        let p := getPartialNFLData env
        (p.1, { tracked := true, result := none },
          cacheActs ++ [.submitSeasonFetch "nfl" year] ++ p.2)

/-- `BaseNFLManager._fetch_data` (`src/nfl_managers.py` lines 204-209): the
live manager calls `_fetch_nfl_api_data(use_cache=False)`, every other
manager calls `_fetch_nfl_api_data(use_cache=True)`. -/
def nflFetchData (isLiveManager : Bool) (st : NFLState) (env : NFLEnv) (year : Int) :
    Option (List GameEvent) × NFLState × List FetchAction :=
  if isLiveManager then nflApiData false st env year
  else nflApiData true st env year

/-- The in-flight year set `self._background_fetching` of
`BaseNCAAFBManager`. -/
structure NCAAFBState where
  backgroundFetching : List Int
  deriving DecidableEq, Repr

/-- `BaseNCAAFBManager._start_background_schedule_fetch`
(`src/ncaa_fb_managers.py` lines 144-182): if the season year is already in
`self._background_fetching`, return without spawning; otherwise record the
year and start the background fetch thread. -/
def startBackgroundScheduleFetch (year : Int) (st : NCAAFBState) :
    NCAAFBState × List FetchAction :=
  if st.backgroundFetching.contains year then (st, [])
  else ({ backgroundFetching := year :: st.backgroundFetching },
    [FetchAction.spawnSeasonThread year])

/-- Environment of one `_fetch_ncaa_fb_api_data` call: the season cache
content and the payload of the immediate-window GET
(`_fetch_immediate_games` returns `None` on a `requests` exception and when
the event list is empty). -/
structure NCAAFBEnv where
  cached : Option (List GameEvent)
  immediate : Option (List GameEvent)
  deriving DecidableEq, Repr

/-- `BaseNCAAFBManager._fetch_ncaa_fb_api_data` (`src/ncaa_fb_managers.py`
lines 84-115): with `use_cache`, a fresh cache hit is returned immediately;
otherwise the season-scale background fetch is started (deduplicated by
`_start_background_schedule_fetch`) and the call returns the synchronous
immediate-window data (`now - 1 day` through `now + 7 days`), or `None` when
that narrow fetch yields nothing. -/
def ncaafbApiData (useCache : Bool) (st : NCAAFBState) (env : NCAAFBEnv) (year : Int) :
    Option (List GameEvent) × NCAAFBState × List FetchAction :=
  let cacheActs : List FetchAction :=
    if useCache then [.cacheRead ("ncaafb_schedule_" ++ toString year)] else []
  match useCache, env.cached with
  | true, some evs => (some evs, st, cacheActs)
  | _, _ =>
    let p := startBackgroundScheduleFetch year st
    (env.immediate, p.1, cacheActs ++ p.2 ++ [FetchAction.immediateWindowFetch (-1) 7])

/-- `BaseNCAAFBManager._fetch_data` (`src/ncaa_fb_managers.py` lines
193-198): the live manager calls `_fetch_ncaa_fb_api_data(use_cache=False)`,
every other manager calls it with `use_cache=True`. -/
def ncaafbFetchData (isLiveManager : Bool) (st : NCAAFBState) (env : NCAAFBEnv) (year : Int) :
    Option (List GameEvent) × NCAAFBState × List FetchAction :=
  if isLiveManager then ncaafbApiData false st env year
  else ncaafbApiData true st env year

/-- Modelled from the spec: `_fetch_todays_games` is implemented in
`src/base_classes/sports.py` (reached through `src/base_classes/basketball.py`
for the NBA), which is not part of this snapshot; per the spec it performs a
fresh, small, synchronous fetch of only the current day's events. -/
def fetchTodaysGames (todayResp : Option (List GameEvent)) :
    Option (List GameEvent) × List FetchAction :=
  (todayResp, [FetchAction.todaysGamesFetch])

/-- `BaseNBAManager._fetch_nba_api_data` (`src/nba_managers.py` lines
50-121) reduced to its effects: with `use_cache`, a valid cache hit
(dict-with-events or legacy list) is returned immediately (an invalid entry
is cleared); otherwise a season-scale background fetch is submitted and the
partial `_get_weeks_data` payload is returned (`_get_weeks_data` lives in
the out-of-snapshot `sports.py`; modelled from the spec as the
immediate-window fetch). -/
def nbaApiData (useCache : Bool) (env : NFLEnv) (year : Int) :
    Option (List GameEvent) × List FetchAction :=
  let key := "nba_schedule_" ++ toString year
  let cacheActs : List FetchAction :=
    if useCache then
      match env.cached with
      | some .invalid => [.cacheRead key, .cacheDelete key]
      | _ => [.cacheRead key]
    else []
  match useCache, env.cached with
  | true, some (.withEvents evs) => (some evs, cacheActs)
  | true, some (.bareList evs) => (some evs, cacheActs)
  | _, _ =>
    (env.immediate,
      cacheActs ++ [.submitSeasonFetch "nba" year, .immediateWindowFetch (-1) 7])

/-- `BaseNBAManager._fetch_data` (`src/nba_managers.py` lines 123-130): the
live manager fetches only today's games; Recent and Upcoming use the cached
season data path. -/
def nbaFetchData (isLiveManager : Bool) (todayResp : Option (List GameEvent))
    (env : NFLEnv) (year : Int) : Option (List GameEvent) × List FetchAction :=
  if isLiveManager then fetchTodaysGames todayResp
  else nbaApiData true env year

/-- The per-event extraction pass of the `update` loops
(`for event in events: game = self._extract_game_details(event) ...`):
events whose extraction returns `None` are skipped, the rest are collected. -/
def processEvents (events : List GameEvent) : List GameDetails :=
  events.filterMap extractGameDetails

/-! ### Concrete vendor payloads and states used by the witnesses -/

/-- A two-competitor vendor event with the given id, parsed date, status
state and status name. -/
def mkEvent (idStr : String) (t : Option Int) (st nm : String) : GameEvent :=
  { id := idStr, date := t,
    competitions :=
      [{ status := { type := { state := st, name := nm } },
         competitors :=
          [{ homeAway := "home", id := "10", abbreviation := "UGA", score := "28" },
           { homeAway := "away", id := "20", abbreviation := "TENN", score := "21" }] }] }

/-- The record `_extract_game_details` produces on `mkEvent idStr t st nm`. -/
def mkDetails (idStr : String) (t : Option Int) (st nm : String) : GameDetails :=
  { id := idStr, start_time_utc := t,
    is_live := st == "in",
    is_final := st == "post",
    is_upcoming := (st == "pre") || scheduledStatusNames.contains (strToLower nm),
    is_halftime := (st == "halftime") || (nm == "STATUS_HALFTIME"),
    home_abbr := "UGA", away_abbr := "TENN", home_id := "10", away_id := "20",
    home_score := "28", away_score := "21", period := 0 }

/-- A vendor event at halftime: `state = "halftime"`, `name = "STATUS_HALFTIME"`. -/
def halftimeEventEx : GameEvent :=
  mkEvent "401520345" (some 1700000000) "halftime" "STATUS_HALFTIME"

/-- A vendor event whose state says in-progress while its name says
scheduled. -/
def inScheduledEventEx : GameEvent :=
  mkEvent "401520346" (some 1700000000) "in" "STATUS_SCHEDULED"

/-- The extraction of `halftimeEventEx`. -/
def halftimeDetailsEx : GameDetails :=
  mkDetails "401520345" (some 1700000000) "halftime" "STATUS_HALFTIME"

/-- The extraction of `inScheduledEventEx`. -/
def inScheduledDetailsEx : GameDetails :=
  mkDetails "401520346" (some 1700000000) "in" "STATUS_SCHEDULED"

/-- The single competition record of a live event with a regular
in-progress status name. -/
def liveCompetitionEx : Competition :=
  { status := { type := { state := "in", name := "STATUS_IN_PROGRESS" } },
    competitors :=
      [{ homeAway := "home", id := "10", abbreviation := "UGA", score := "28" },
       { homeAway := "away", id := "20", abbreviation := "TENN", score := "21" }] }

/-- A vendor event with an empty `competitions` array, on which
`game_event["competitions"][0]` raises `IndexError`. -/
def badEventEx : GameEvent := { id := "evt05", date := some 1000, competitions := [] }

/-- A batch of ten vendor events in which event number 5 raises during
extraction. -/
def buggyBatchEx : List GameEvent :=
  [mkEvent "evt01" (some 1000) "pre" "STATUS_SCHEDULED",
   mkEvent "evt02" (some 1000) "pre" "STATUS_SCHEDULED",
   mkEvent "evt03" (some 1000) "in" "STATUS_IN_PROGRESS",
   mkEvent "evt04" (some 1000) "post" "STATUS_FINAL",
   badEventEx,
   mkEvent "evt06" (some 1000) "pre" "STATUS_SCHEDULED",
   mkEvent "evt07" (some 1000) "post" "STATUS_FINAL",
   mkEvent "evt08" (some 1000) "in" "STATUS_IN_PROGRESS",
   mkEvent "evt09" (some 1000) "pre" "STATUS_SCHEDULED",
   mkEvent "evt10" (some 1000) "post" "STATUS_FINAL"]

/-- The same batch without the raising event. -/
def goodBatchEx : List GameEvent :=
  [mkEvent "evt01" (some 1000) "pre" "STATUS_SCHEDULED",
   mkEvent "evt02" (some 1000) "pre" "STATUS_SCHEDULED",
   mkEvent "evt03" (some 1000) "in" "STATUS_IN_PROGRESS",
   mkEvent "evt04" (some 1000) "post" "STATUS_FINAL",
   mkEvent "evt06" (some 1000) "pre" "STATUS_SCHEDULED",
   mkEvent "evt07" (some 1000) "post" "STATUS_FINAL",
   mkEvent "evt08" (some 1000) "in" "STATUS_IN_PROGRESS",
   mkEvent "evt09" (some 1000) "pre" "STATUS_SCHEDULED",
   mkEvent "evt10" (some 1000) "post" "STATUS_FINAL"]

/-- A final vendor event whose start time parsed to `t`. -/
def finalEventAt (t : Int) : GameEvent := mkEvent "fin" (some t) "post" "STATUS_FINAL"

/-- The extraction of `finalEventAt t`. -/
def finalDetailsAt (t : Int) : GameDetails := mkDetails "fin" (some t) "post" "STATUS_FINAL"

/-- A final game record whose vendor date string failed to parse. -/
def noTimeFinalEx : GameDetails := mkDetails "fin-no-time" none "post" "STATUS_FINAL"

/-- An upcoming game record with a given id, start time and home team. -/
def upGame (idStr : String) (t : Option Int) (home away : String) : GameDetails :=
  { id := idStr, start_time_utc := t,
    is_live := false, is_final := false, is_upcoming := true, is_halftime := false,
    home_abbr := home, away_abbr := away, home_id := "1", away_id := "2",
    home_score := "0", away_score := "0", period := 0 }

/-- DAL at home in one day (T = 0). -/
def dalGameEarlyEx : GameDetails := upGame "dal1" (some 86400) "DAL" "NYG"

/-- DAL away in five days. -/
def dalGameLateEx : GameDetails := upGame "dal2" (some (5 * 86400)) "PHI" "DAL"

/-- Three non-DAL upcoming games. -/
def otherUpcomingEx : List GameDetails :=
  [upGame "oth1" (some 3600) "KC" "BUF",
   upGame "oth2" (some 7200) "SF" "SEA",
   upGame "oth3" none "NE" "MIA"]

/-- The five-game upcoming pool of the favourite-team scenario. -/
def upcomingPoolEx : List GameDetails :=
  dalGameLateEx :: dalGameEarlyEx :: otherUpcomingEx

/-- A coherent rotation state showing game B (index 1) of three games. -/
def rotStateEx : RotationState :=
  { games_list :=
      [upGame "A" (some 100) "KC" "BUF",
       upGame "B" (some 200) "SF" "SEA",
       upGame "C" (some 300) "NE" "MIA"],
    current_game_index := 1,
    current_game := some (upGame "B" (some 200) "SF" "SEA"),
    last_game_switch := 50 }

/-- The same three games, reordered, with a refreshed start time on C. -/
def reorderedGamesEx : List GameDetails :=
  [upGame "C" (some 301) "NE" "MIA",
   upGame "A" (some 100) "KC" "BUF",
   upGame "B" (some 200) "SF" "SEA"]

/-- A new list from which game B has disappeared. -/
def droppedGamesEx : List GameDetails :=
  [upGame "A" (some 100) "KC" "BUF",
   upGame "C" (some 300) "NE" "MIA"]

/-- A tracked NFL request still in flight (no result yet). -/
def nflInFlightStateEx : NFLState := { tracked := true, result := none }

/-- A fresh NFL manager state with nothing tracked. -/
def nflFreshStateEx : NFLState := { tracked := false, result := none }

/-- An environment with the background service enabled, a cold cache, and a
live event available from the immediate-window fetch. -/
def nflEnvEx : NFLEnv :=
  { backgroundEnabled := true, cached := none,
    immediate := some [mkEvent "evL" (some 5) "in" "STATUS_IN_PROGRESS"],
    syncResp := none }

/-- An NCAAFB manager state with no background fetch in flight. -/
def ncaafbFreshStateEx : NCAAFBState := { backgroundFetching := [] }

/-- An NCAAFB manager state already fetching the 2025 season. -/
def ncaafbInFlightStateEx : NCAAFBState := { backgroundFetching := [2025] }

/-- An NCAAFB environment with a cold cache and immediate-window data. -/
def ncaafbEnvEx : NCAAFBEnv :=
  { cached := none,
    immediate := some [mkEvent "evL" (some 5) "in" "STATUS_IN_PROGRESS"] }

/-- A rotation state that has never shown anything. -/
def emptyRotStateEx : RotationState :=
  { games_list := [], current_game_index := 0, current_game := none,
    last_game_switch := 0 }

/-! ## Theorems -/

/-- Helper: what `_extract_game_details` returns determines the three status
flags as functions of the head competition's status state and name. -/
theorem extract_flags_spec (e : GameEvent) (d : GameDetails)
    (h : extractGameDetails e = some d) :
    ∃ c rest, e.competitions = c :: rest ∧
      d.is_live = (c.status.type.state == "in") ∧
      d.is_final = (c.status.type.state == "post") ∧
      d.is_upcoming = ((c.status.type.state == "pre") ||
        scheduledStatusNames.contains (strToLower c.status.type.name)) := by
  unfold extractGameDetails extractGameDetailsBody at h
  cases hce : e.competitions with
  | nil => rw [hce] at h; simp at h
  | cons c rest =>
    rw [hce] at h
    dsimp only at h
    refine ⟨c, rest, rfl, ?_⟩
    cases hh : c.competitors.find? (fun x => x.homeAway == "home") with
    | none => rw [hh] at h; simp at h
    | some homeTeam =>
      cases ha : c.competitors.find? (fun x => x.homeAway == "away") with
      | none => rw [hh, ha] at h; simp at h
      | some awayTeam =>
        rw [hh, ha] at h
        dsimp only at h
        split at h
        · rename_i x r heq
          split at heq
          · cases heq
            simp at h
          · cases heq
            simp only [Option.some.injEq] at h
            subst h
            exact ⟨rfl, rfl, rfl⟩
        · simp at h

/-- Claim C3, counterexample: a successfully extracted halftime event
(`state = "halftime"`, `name = "STATUS_HALFTIME"`) has none of the three
flags set, and an event whose state is `"in"` while its name is
`"STATUS_SCHEDULED"` has two of them set, so exclusivity fails for these
vendor status state/name strings even though extraction succeeds. -/
theorem extract_halftime_breaks_exclusivity :
    extractGameDetails halftimeEventEx = some halftimeDetailsEx ∧
    halftimeDetailsEx.is_halftime = true ∧
    exactlyOneOf halftimeDetailsEx.is_upcoming halftimeDetailsEx.is_live
      halftimeDetailsEx.is_final = false ∧
    extractGameDetails inScheduledEventEx = some inScheduledDetailsEx ∧
    inScheduledDetailsEx.is_live = true ∧
    inScheduledDetailsEx.is_upcoming = true ∧
    exactlyOneOf inScheduledDetailsEx.is_upcoming inScheduledDetailsEx.is_live
      inScheduledDetailsEx.is_final = false :=
  ⟨rfl, rfl, rfl, rfl, rfl, rfl, rfl⟩

/-- Claim C3 (amended): for every event `_extract_game_details` normalizes
successfully, exactly one of `is_upcoming`, `is_live`, `is_final` is true
provided the vendor status state is one of `"pre"`, `"in"`, `"post"` and the
status name is not one of the scheduled-type names when the state is not
`"pre"` (the halftime sub-flag never influences these three flags).  Outside
these conditions exclusivity fails, as the counterexample shows. -/
theorem extract_classification_exclusive (e : GameEvent) (d : GameDetails)
    (c : Competition) (rest : List Competition)
    (hcomp : e.competitions = c :: rest)
    (hstate : c.status.type.state = "pre" ∨ c.status.type.state = "in" ∨
      c.status.type.state = "post")
    (hname : c.status.type.state = "pre" ∨
      scheduledStatusNames.contains (strToLower c.status.type.name) = false)
    (hx : extractGameDetails e = some d) :
    exactlyOneOf d.is_upcoming d.is_live d.is_final = true := by
  obtain ⟨c2, rest2, hc2, hl, hf, hu⟩ := extract_flags_spec e d hx
  rw [hcomp] at hc2
  injection hc2 with hcc hrr
  subst hcc
  rcases hstate with hs | hs | hs
  · rw [hs] at hl hf hu
    rw [show (("pre" : String) == "in") = false from rfl] at hl
    rw [show (("pre" : String) == "post") = false from rfl] at hf
    rw [show (("pre" : String) == "pre") = true from rfl] at hu
    rw [Bool.true_or] at hu
    rw [exactlyOneOf, hu, hl, hf]
    rfl
  · have hn : scheduledStatusNames.contains (strToLower c.status.type.name) = false := by
      rcases hname with hn | hn
      · rw [hs] at hn
        exact absurd hn (by decide)
      · exact hn
    rw [hs] at hl hf hu
    rw [show (("in" : String) == "in") = true from rfl] at hl
    rw [show (("in" : String) == "post") = false from rfl] at hf
    rw [show (("in" : String) == "pre") = false from rfl, Bool.false_or, hn] at hu
    rw [exactlyOneOf, hu, hl, hf]
    rfl
  · have hn : scheduledStatusNames.contains (strToLower c.status.type.name) = false := by
      rcases hname with hn | hn
      · rw [hs] at hn
        exact absurd hn (by decide)
      · exact hn
    rw [hs] at hl hf hu
    rw [show (("post" : String) == "in") = false from rfl] at hl
    rw [show (("post" : String) == "post") = true from rfl] at hf
    rw [show (("post" : String) == "pre") = false from rfl, Bool.false_or, hn] at hu
    rw [exactlyOneOf, hu, hl, hf]
    rfl

/-- Claim C3, witness: the amended exclusivity theorem applied to a concrete
in-progress event. -/
theorem extract_classification_exclusive_check :
    exactlyOneOf (mkDetails "evtW" (some 1) "in" "STATUS_IN_PROGRESS").is_upcoming
      (mkDetails "evtW" (some 1) "in" "STATUS_IN_PROGRESS").is_live
      (mkDetails "evtW" (some 1) "in" "STATUS_IN_PROGRESS").is_final = true :=
  extract_classification_exclusive
    (mkEvent "evtW" (some 1) "in" "STATUS_IN_PROGRESS")
    (mkDetails "evtW" (some 1) "in" "STATUS_IN_PROGRESS")
    liveCompetitionEx [] rfl (Or.inr (Or.inl rfl)) (Or.inr (by decide)) rfl

/-- Claim C5: the Recent slot keeps a game exactly when it is final and its
start time is at least `now` minus 21 days; in particular, of three finals
at `now - 1` day, `now - 20` days and `now - 22` days, exactly the first two
are retained. -/
theorem recent_window_filter (now : Int) :
    recentProcessedGames now
        [finalEventAt (now - 86400), finalEventAt (now - 20 * 86400),
          finalEventAt (now - 22 * 86400)] =
      [finalDetailsAt (now - 86400), finalDetailsAt (now - 20 * 86400)] ∧
    (∀ g : GameDetails, recentKeep now g = true ↔
      (g.is_final = true ∧ ∃ t, g.start_time_utc = some t ∧ recentCutoff now ≤ t)) := by
  constructor
  · have k1 : recentKeep now (finalDetailsAt (now - 86400)) = true := by
      show decide (recentCutoff now ≤ now - 86400) = true
      rw [decide_eq_true_eq]
      unfold recentCutoff
      omega
    have k2 : recentKeep now (finalDetailsAt (now - 20 * 86400)) = true := by
      show decide (recentCutoff now ≤ now - 20 * 86400) = true
      rw [decide_eq_true_eq]
      unfold recentCutoff
      omega
    have k3 : recentKeep now (finalDetailsAt (now - 22 * 86400)) = false := by
      show decide (recentCutoff now ≤ now - 22 * 86400) = false
      rw [decide_eq_false_iff_not]
      unfold recentCutoff
      omega
    have hred : recentProcessedGames now
        [finalEventAt (now - 86400), finalEventAt (now - 20 * 86400),
          finalEventAt (now - 22 * 86400)] =
        List.filter (recentKeep now)
          [finalDetailsAt (now - 86400), finalDetailsAt (now - 20 * 86400),
            finalDetailsAt (now - 22 * 86400)] := rfl
    rw [hred, List.filter_cons, List.filter_cons, List.filter_cons, k1, k2, k3]
    simp
  · intro g
    constructor
    · intro hk
      unfold recentKeep at hk
      cases hst : g.start_time_utc with
      | none => rw [hst] at hk; simp at hk
      | some t =>
        rw [hst] at hk
        simp only [Bool.and_eq_true, decide_eq_true_eq] at hk
        exact ⟨hk.1, t, rfl, hk.2⟩
    · rintro ⟨hf, t, hst, hle⟩
      unfold recentKeep
      rw [hst, hf]
      simp [hle]

/-- Claim C5, witness: the window filter evaluated at `now = 0`. -/
theorem recent_window_filter_check :
    recentProcessedGames 0
        [finalEventAt (0 - 86400), finalEventAt (0 - 20 * 86400),
          finalEventAt (0 - 22 * 86400)] =
      [finalDetailsAt (0 - 86400), finalDetailsAt (0 - 20 * 86400)] :=
  (recent_window_filter 0).1

/-- Claim C10: a final game with no parsed start time is never admitted by
the recent-window filter, however recently it finished, so it never appears
in the Recent slot's processed list. -/
theorem unknown_time_final_excluded (now : Int) (events : List GameEvent)
    (g : GameDetails) (hg : g.start_time_utc = none) :
    recentKeep now g = false ∧ g ∉ recentProcessedGames now events := by
  have hk : recentKeep now g = false := by
    unfold recentKeep
    rw [hg]
    simp
  refine ⟨hk, fun hmem => ?_⟩
  have hp := (List.mem_filter.mp hmem).2
  rw [hk] at hp
  cases hp

/-- Claim C10, witness: a concrete unknown-time final is excluded. -/
theorem unknown_time_final_excluded_check :
    recentKeep 0 noTimeFinalEx = false ∧
    noTimeFinalEx ∉ recentProcessedGames 0 [] :=
  unknown_time_final_excluded 0 [] noTimeFinalEx rfl

/-- Claim C7: an exception while extracting one event of a batch is isolated
to that event: the body of `_extract_game_details` raises on event number 5
(empty `competitions`), the wrapper converts it to `None`, and the batch of
ten events yields exactly the nine games of the other nine events; the
extraction pass is a total function, so nothing propagates to `update`. -/
theorem extraction_failure_isolated :
    extractGameDetailsBody badEventEx =
      Except.error "IndexError: list index out of range" ∧
    extractGameDetails badEventEx = none ∧
    processEvents buggyBatchEx = processEvents goodBatchEx ∧
    (processEvents buggyBatchEx).length = 9 :=
  ⟨rfl, rfl, rfl, rfl⟩

/-- Claim C8: when a poll returns no data (`None` or no `events` key), the
no-data branch keeps the whole state if at least one game was held, and
clears `current_game` (touching nothing else) only when no game was held. -/
theorem no_data_preserves_state (s : RotationState) :
    (s.games_list ≠ [] → noDataStep s = s) ∧
    (s.games_list = [] →
      (noDataStep s).current_game = none ∧ (noDataStep s).games_list = s.games_list) := by
  constructor
  · intro h
    unfold noDataStep
    rw [if_neg (by simp [List.isEmpty_iff, h])]
  · intro h
    unfold noDataStep
    rw [if_pos (by simp [List.isEmpty_iff, h])]
    exact ⟨rfl, rfl⟩

/-- Claim C8, witness: a populated state is untouched, an empty one is
cleared. -/
theorem no_data_preserves_state_check :
    noDataStep rotStateEx = rotStateEx ∧
    (noDataStep emptyRotStateEx).current_game = none :=
  ⟨(no_data_preserves_state rotStateEx).1 (by decide),
   ((no_data_preserves_state emptyRotStateEx).2 rfl).1⟩

/-- Helper: the state produced by the core update branch, followed by the
trailing empty-list fix, is coherent whenever the core state satisfies the
index/current conditions on non-empty lists. -/
theorem coherent_fixEmpty (s1 : RotationState)
    (h : s1.games_list ≠ [] →
      s1.current_game_index < s1.games_list.length ∧
      s1.current_game = s1.games_list[s1.current_game_index]?) :
    coherent (if s1.games_list.isEmpty then { s1 with current_game := none } else s1) := by
  by_cases he : s1.games_list = []
  · rw [if_pos (by simp [he])]
    exact ⟨fun _ => rfl, fun hne => absurd he hne⟩
  · rw [if_neg (by simp [he])]
    exact ⟨fun h2 => absurd h2 he, fun _ => h he⟩

/-- Helper: every branch of the core update step yields a valid index and a
matching `current_game` when its list is non-empty. -/
theorem applyGamesListCore_spec (s : RotationState) (teamGames : List GameDetails)
    (now : Int) (hs : coherent s) :
    (applyGamesListCore s teamGames now).games_list ≠ [] →
      (applyGamesListCore s teamGames now).current_game_index <
        (applyGamesListCore s teamGames now).games_list.length ∧
      (applyGamesListCore s teamGames now).current_game =
        (applyGamesListCore s teamGames now).games_list[(applyGamesListCore s teamGames
          now).current_game_index]? := by
  unfold applyGamesListCore
  by_cases heq : idSetEq (gameIds teamGames) (gameIds s.games_list) = true
  · rw [if_pos heq]
    by_cases hemp : s.games_list.isEmpty = true
    · rw [if_pos hemp]
      exact hs.2
    · rw [if_neg hemp]
      have hne : s.games_list ≠ [] := by simpa [List.isEmpty_iff] using hemp
      obtain ⟨hlt, hcur⟩ := hs.2 hne
      cases hget : s.games_list[s.current_game_index]? with
      | none => exact hs.2
      | some g =>
        intro _
        dsimp only
        exact ⟨hlt, by simp [hget]⟩
  · rw [if_neg heq]
    cases hcg : s.current_game with
    | none =>
      intro hne
      dsimp only at hne ⊢
      cases teamGames with
      | nil => exact absurd rfl hne
      | cons a l => exact ⟨by simp, by simp⟩
    | some cg =>
      dsimp only
      by_cases hreset : (teamGames.isEmpty || !((gameIds teamGames).contains cg.id)) = true
      · rw [if_pos hreset]
        intro hne
        dsimp only at hne ⊢
        cases teamGames with
        | nil => exact absurd rfl hne
        | cons a l => exact ⟨by simp, by simp⟩
      · rw [if_neg hreset]
        cases hfind : teamGames.findIdx? (fun g => g.id == cg.id) with
        | none =>
          intro hne
          dsimp only at hne ⊢
          cases teamGames with
          | nil => exact absurd rfl hne
          | cons a l => exact ⟨by simp, by simp⟩
        | some i =>
          intro hne
          dsimp only at hne ⊢
          have hi := (List.findIdx?_eq_some_iff_findIdx_eq.mp hfind).1
          exact ⟨hi, rfl⟩

/-- Helper: the trailing empty-list fix never changes the list, the index or
the switch timer. -/
theorem applyGamesList_fields (s : RotationState) (teamGames : List GameDetails) (now : Int) :
    (applyGamesList s teamGames now).games_list =
      (applyGamesListCore s teamGames now).games_list ∧
    (applyGamesList s teamGames now).current_game_index =
      (applyGamesListCore s teamGames now).current_game_index ∧
    (applyGamesList s teamGames now).last_game_switch =
      (applyGamesListCore s teamGames now).last_game_switch := by
  unfold applyGamesList
  split
  · exact ⟨rfl, rfl, rfl⟩
  · exact ⟨rfl, rfl, rfl⟩

/-- Helper: the update tail preserves coherence. -/
theorem applyGamesList_coherent (s : RotationState) (teamGames : List GameDetails)
    (now : Int) (hs : coherent s) : coherent (applyGamesList s teamGames now) :=
  coherent_fixEmpty _ (applyGamesListCore_spec s teamGames now hs)

/-- Helper: the display rotation step preserves coherence. -/
theorem displayStep_coherent (s : RotationState) (now duration : Int) (hs : coherent s) :
    coherent (displayStep s now duration) := by
  unfold displayStep
  by_cases hemp : s.games_list.isEmpty = true
  · rw [if_pos hemp]
    have he : s.games_list = [] := by simpa [List.isEmpty_iff] using hemp
    exact ⟨fun _ => rfl, fun hne => absurd he hne⟩
  · rw [if_neg hemp]
    have hne : s.games_list ≠ [] := by simpa [List.isEmpty_iff] using hemp
    by_cases hsw : (decide (1 < s.games_list.length) &&
        decide (duration ≤ now - s.last_game_switch)) = true
    · rw [if_pos hsw]
      refine ⟨fun h2 => absurd h2 hne, fun _ => ?_⟩
      have hlen : 0 < s.games_list.length := List.length_pos.mpr hne
      exact ⟨Nat.mod_lt _ hlen, rfl⟩
    · rw [if_neg hsw]
      exact hs

/-- Claim C9: starting from a coherent rotation state, the update tail, the
display rotation step and the no-data branch each leave the state coherent:
an empty list shows nothing, and a non-empty list shows exactly the entry at
the (in-range) current index. -/
theorem rotation_coherent_preserved (s : RotationState) (teamGames : List GameDetails)
    (now duration : Int) (hs : coherent s) :
    coherent (applyGamesList s teamGames now) ∧
    coherent (displayStep s now duration) ∧
    coherent (noDataStep s) := by
  refine ⟨applyGamesList_coherent s teamGames now hs,
    displayStep_coherent s now duration hs, ?_⟩
  unfold noDataStep
  by_cases he : s.games_list = []
  · rw [if_pos (by simp [he])]
    exact ⟨fun _ => rfl, fun hne => absurd he hne⟩
  · rw [if_neg (by simp [he])]
    exact hs

/-- Claim C9, witness: coherence is preserved on a concrete state. -/
theorem rotation_coherent_preserved_check :
    coherent (applyGamesList rotStateEx droppedGamesEx 1000) ∧
    coherent (displayStep rotStateEx 1000 15) ∧
    coherent (noDataStep rotStateEx) :=
  rotation_coherent_preserved rotStateEx droppedGamesEx 1000 15 (by decide)

/-- Claim C4: on a coherent state, if the freshly computed list has the same
id set as the displayed one, the update tail preserves the list, the
rotation index, the shown game and the switch timer; and if the currently
shown game's id is absent from the new id set, the index resets to 0 and the
switch timer resets to the current time. -/
theorem rotation_stability_and_reset (s : RotationState) (teamGames : List GameDetails)
    (now : Int) (hs : coherent s) :
    (idSetEq (gameIds teamGames) (gameIds s.games_list) = true → s.games_list ≠ [] →
      (applyGamesList s teamGames now).games_list = s.games_list ∧
      (applyGamesList s teamGames now).current_game_index = s.current_game_index ∧
      (applyGamesList s teamGames now).current_game = s.current_game ∧
      (applyGamesList s teamGames now).last_game_switch = s.last_game_switch) ∧
    (∀ cg, s.current_game = some cg → (gameIds teamGames).contains cg.id = false →
      (applyGamesList s teamGames now).current_game_index = 0 ∧
      (applyGamesList s teamGames now).last_game_switch = now) := by
  constructor
  · intro hid hne
    obtain ⟨hlt, hcur⟩ := hs.2 hne
    have hget : s.games_list[s.current_game_index]? =
        some (s.games_list.get ⟨s.current_game_index, hlt⟩) := List.getElem?_eq_getElem hlt
    have hcore : applyGamesListCore s teamGames now =
        { s with current_game := some (s.games_list.get ⟨s.current_game_index, hlt⟩) } := by
      unfold applyGamesListCore
      rw [if_pos hid, if_neg (by simp [List.isEmpty_iff, hne]), hget]
    have happ : applyGamesList s teamGames now =
        { s with current_game := some (s.games_list.get ⟨s.current_game_index, hlt⟩) } := by
      unfold applyGamesList
      rw [hcore, if_neg (by simp [List.isEmpty_iff, hne])]
    rw [happ]
    refine ⟨rfl, rfl, ?_, rfl⟩
    show some (s.games_list.get ⟨s.current_game_index, hlt⟩) = s.current_game
    rw [hcur, hget]
  · intro cg hcg hnotin
    have hne : s.games_list ≠ [] := by
      intro he
      rw [hs.1 he] at hcg
      cases hcg
    obtain ⟨hlt, hcur⟩ := hs.2 hne
    have hmem : cg ∈ s.games_list := by
      have h7 : s.games_list[s.current_game_index]? = some cg := by
        rw [← hcur, hcg]
      obtain ⟨h5, h6⟩ := List.getElem?_eq_some_iff.mp h7
      exact h6 ▸ List.getElem_mem h5
    have hidmem : cg.id ∈ gameIds s.games_list :=
      List.mem_map.mpr ⟨cg, hmem, rfl⟩
    have hidneq : idSetEq (gameIds teamGames) (gameIds s.games_list) = false := by
      by_contra hcon
      have htrue : idSetEq (gameIds teamGames) (gameIds s.games_list) = true := by
        revert hcon
        cases idSetEq (gameIds teamGames) (gameIds s.games_list) <;> simp
      have hall := (Bool.and_eq_true _ _ |>.mp htrue).2
      rw [List.all_eq_true] at hall
      have h8 := hall cg.id hidmem
      rw [hnotin] at h8
      cases h8
    have hcore : applyGamesListCore s teamGames now =
        { games_list := teamGames, current_game_index := 0,
          current_game := teamGames.head?, last_game_switch := now } := by
      unfold applyGamesListCore
      rw [if_neg (by simp [hidneq]), hcg]
      dsimp only
      rw [if_pos (by rw [hnotin]; simp)]
    obtain ⟨hf1, hf2, hf3⟩ := applyGamesList_fields s teamGames now
    rw [hf2, hf3, hcore]
    exact ⟨rfl, rfl⟩

/-- Claim C4, witness: with games A, B, C showing B, a reordered update with
the same ids keeps showing B; an update without B resets index and timer. -/
theorem rotation_stability_and_reset_check :
    (applyGamesList rotStateEx reorderedGamesEx 1000).current_game =
      rotStateEx.current_game ∧
    (applyGamesList rotStateEx reorderedGamesEx 1000).current_game_index =
      rotStateEx.current_game_index ∧
    (applyGamesList rotStateEx droppedGamesEx 1000).current_game_index = 0 ∧
    (applyGamesList rotStateEx droppedGamesEx 1000).last_game_switch = 1000 :=
  ⟨((rotation_stability_and_reset rotStateEx reorderedGamesEx 1000 (by decide)).1
      (by decide) (by decide)).2.2.1,
   ((rotation_stability_and_reset rotStateEx reorderedGamesEx 1000 (by decide)).1
      (by decide) (by decide)).2.1,
   ((rotation_stability_and_reset rotStateEx droppedGamesEx 1000 (by decide)).2
      (upGame "B" (some 200) "SF" "SEA") rfl (by decide)).1,
   ((rotation_stability_and_reset rotStateEx droppedGamesEx 1000 (by decide)).2
      (upGame "B" (some 200) "SF" "SEA") rfl (by decide)).2⟩

/-- Helper: the sort comparison is reflexive. -/
theorem sortKeyLE_refl (a : GameDetails) : sortKeyLE a a = true := by
  unfold sortKeyLE
  cases a.start_time_utc <;> simp

/-- Helper: the sort comparison is total. -/
theorem sortKeyLE_total (a b : GameDetails) : sortKeyLE a b || sortKeyLE b a := by
  unfold sortKeyLE
  cases a.start_time_utc <;> cases b.start_time_utc <;> simp
  omega

/-- Helper: the sort comparison is transitive. -/
theorem sortKeyLE_trans :
    ∀ a b c : GameDetails, sortKeyLE a b → sortKeyLE b c → sortKeyLE a c := by
  intro a b c h1 h2
  unfold sortKeyLE at h1 h2 ⊢
  cases ha : a.start_time_utc <;> cases hb : b.start_time_utc <;>
      cases hc : c.start_time_utc <;>
      rw [ha, hb] at h1 <;> rw [hb, hc] at h2 <;> simp_all
  omega

/-- Helper: the head of a sorted list is a minimum of the original list. -/
theorem head_min_of_sorted {l : List GameDetails} {g : GameDetails}
    (hg : (l.mergeSort sortKeyLE).head? = some g) :
    ∀ x ∈ l, sortKeyLE g x = true := by
  intro x hx
  have hp : (l.mergeSort sortKeyLE).Pairwise (fun a b => sortKeyLE a b) :=
    List.sorted_mergeSort sortKeyLE_trans sortKeyLE_total l
  have hxm : x ∈ l.mergeSort sortKeyLE := List.mem_mergeSort.mpr hx
  cases hms : l.mergeSort sortKeyLE with
  | nil => rw [hms] at hg; cases hg
  | cons a tail =>
    rw [hms] at hg hxm hp
    have hag : a = g := by
      have h9 : some a = some g := hg
      injection h9
    subst hag
    cases List.mem_cons.mp hxm with
    | inl hxa => rw [hxa]; exact sortKeyLE_refl a
    | inr hxt => exact (List.pairwise_cons.mp hp).1 x hxt

/-- Claim C6: in the favorites branch of the Upcoming selection, every
favorite team with at least one upcoming game contributes a game of that
team that is earliest among the team's games; the resulting list is sorted
ascending by the start-time key under which unknown start times compare
strictly after every known one; and in the concrete scenario with
`favorite_teams = ["DAL"]` and DAL games at one and five days out, only the
one-day game is selected. -/
theorem upcoming_favorite_selection (favoriteTeams : List String)
    (processed : List GameDetails) (n : Nat) :
    (∀ team g0, team ∈ favoriteTeams →
      g0 ∈ gamesOfTeam team (favoriteTeamGames favoriteTeams processed) →
      ∃ g, g ∈ upcomingSelection true favoriteTeams processed n ∧
        g ∈ gamesOfTeam team (favoriteTeamGames favoriteTeams processed) ∧
        ∀ g2 ∈ gamesOfTeam team (favoriteTeamGames favoriteTeams processed),
          sortKeyLE g g2 = true) ∧
    (upcomingSelection true favoriteTeams processed n).Pairwise
      (fun a b => sortKeyLE a b = true) ∧
    (∀ a b : GameDetails, a.start_time_utc = none → b.start_time_utc ≠ none →
      sortKeyLE a b = false) ∧
    upcomingSelection true ["DAL"] upcomingPoolEx n = [dalGameEarlyEx] := by
  refine ⟨?_, ?_, ?_, ?_⟩
  · intro team g0 hteam hg0
    have hne : gamesOfTeam team (favoriteTeamGames favoriteTeams processed) ≠ [] :=
      List.ne_nil_of_mem hg0
    have hms : (gamesOfTeam team (favoriteTeamGames favoriteTeams
        processed)).mergeSort sortKeyLE ≠ [] := by
      intro h
      have hp := List.mergeSort_perm (gamesOfTeam team (favoriteTeamGames favoriteTeams
        processed)) sortKeyLE
      rw [h] at hp
      exact hne (hp.symm.eq_nil)
    obtain ⟨g, hghead⟩ : ∃ g, ((gamesOfTeam team (favoriteTeamGames favoriteTeams
        processed)).mergeSort sortKeyLE).head? = some g := by
      cases hx : (gamesOfTeam team (favoriteTeamGames favoriteTeams
          processed)).mergeSort sortKeyLE with
      | nil => exact absurd hx hms
      | cons a tl => exact ⟨a, rfl⟩
    refine ⟨g, ?_, ?_, head_min_of_sorted hghead⟩
    · show g ∈ (selectEarliestPerTeam favoriteTeams
        (favoriteTeamGames favoriteTeams processed)).mergeSort sortKeyLE
      refine List.mem_mergeSort.mpr ?_
      exact List.mem_filterMap.mpr ⟨team, hteam, hghead⟩
    · have hgm : g ∈ (gamesOfTeam team (favoriteTeamGames favoriteTeams
          processed)).mergeSort sortKeyLE := by
        cases hx : (gamesOfTeam team (favoriteTeamGames favoriteTeams
            processed)).mergeSort sortKeyLE with
        | nil => exact absurd hx hms
        | cons a tl =>
          rw [hx] at hghead
          have h9 : some a = some g := hghead
          injection h9 with h2
          rw [← h2]
          exact List.mem_cons_self _ _
      exact List.mem_mergeSort.mp hgm
  · show ((selectEarliestPerTeam favoriteTeams
        (favoriteTeamGames favoriteTeams processed)).mergeSort sortKeyLE).Pairwise _
    exact List.sorted_mergeSort sortKeyLE_trans sortKeyLE_total _
  · intro a b ha hb
    unfold sortKeyLE
    rw [ha]
    cases hbv : b.start_time_utc with
    | none => exact absurd hbv hb
    | some t => rfl
  · have h3 : List.mergeSort [dalGameLateEx, dalGameEarlyEx] sortKeyLE =
        [dalGameEarlyEx, dalGameLateEx] := by
      rw [List.mergeSort]
      simp [List.merge, sortKeyLE, dalGameEarlyEx, dalGameLateEx, upGame]
    have hsel : selectEarliestPerTeam ["DAL"]
        (favoriteTeamGames ["DAL"] upcomingPoolEx) = [dalGameEarlyEx] := by
      unfold selectEarliestPerTeam
      rw [show favoriteTeamGames ["DAL"] upcomingPoolEx =
        [dalGameLateEx, dalGameEarlyEx] from rfl]
      rw [List.filterMap_cons]
      rw [show gamesOfTeam "DAL" [dalGameLateEx, dalGameEarlyEx] =
        [dalGameLateEx, dalGameEarlyEx] from rfl]
      rw [h3]
      simp
    show (selectEarliestPerTeam ["DAL"]
      (favoriteTeamGames ["DAL"] upcomingPoolEx)).mergeSort sortKeyLE = [dalGameEarlyEx]
    rw [hsel, List.mergeSort_singleton]

/-- Claim C6, witness: the DAL scenario, and the per-team earliest property
instantiated for DAL. -/
theorem upcoming_favorite_selection_check :
    upcomingSelection true ["DAL"] upcomingPoolEx 10 = [dalGameEarlyEx] ∧
    (∃ g, g ∈ upcomingSelection true ["DAL"] upcomingPoolEx 10 ∧
      g ∈ gamesOfTeam "DAL" (favoriteTeamGames ["DAL"] upcomingPoolEx) ∧
      ∀ g2 ∈ gamesOfTeam "DAL" (favoriteTeamGames ["DAL"] upcomingPoolEx),
        sortKeyLE g g2 = true) :=
  ⟨(upcoming_favorite_selection ["DAL"] upcomingPoolEx 10).2.2.2,
   (upcoming_favorite_selection ["DAL"] upcomingPoolEx 10).1 "DAL" dalGameLateEx
     (by decide) (by decide)⟩

/-- Claim C1: while a season-schedule fetch for the key is in flight, a
second call of `_fetch_nfl_api_data` issues no new season-scale fetch (no
background submission, no synchronous season call) and leaves the tracking
state unchanged, returning the immediate-window partial data on the
cache-bypassing path; and `_start_background_schedule_fetch` returns without
spawning a thread when the year is already in the in-flight set. -/
theorem season_fetch_dedup_in_flight (useCache : Bool) (st : NFLState) (env : NFLEnv)
    (year : Int) (st2 : NCAAFBState)
    (hbg : env.backgroundEnabled = true)
    (htr : st.tracked = true) (hres : st.result = none)
    (hin : st2.backgroundFetching.contains year = true) :
    ((nflApiData useCache st env year).2.2.all (fun a => !(isSeasonStart a)) = true) ∧
    (nflApiData useCache st env year).2.1 = st ∧
    (nflApiData false st env year).1 = env.immediate ∧
    startBackgroundScheduleFetch year st2 = (st2, []) := by
  obtain ⟨tr, res⟩ := st
  obtain ⟨bg, cached, imm, sresp⟩ := env
  have htr2 : tr = true := htr
  have hres2 : res = none := hres
  have hbg2 : bg = true := hbg
  subst htr2
  subst hres2
  subst hbg2
  refine ⟨?_, ?_, ?_, ?_⟩
  · cases useCache <;> rcases cached with _ | (evs | evs | _) <;>
      simp [nflApiData, getPartialNFLData, nflApiDataSync, isSeasonStart]
  · cases useCache <;> rcases cached with _ | (evs | evs | _) <;>
      simp [nflApiData, getPartialNFLData, nflApiDataSync]
  · rcases cached with _ | (evs | evs | _) <;>
      simp [nflApiData, getPartialNFLData, nflApiDataSync]
  · unfold startBackgroundScheduleFetch
    rw [if_pos hin]

/-- Claim C1, witness: the dedup facts evaluated on a concrete in-flight
state and environment. -/
theorem season_fetch_dedup_in_flight_check :
    ((nflApiData false nflInFlightStateEx nflEnvEx 2025).2.2.all
      (fun a => !(isSeasonStart a)) = true) ∧
    (nflApiData false nflInFlightStateEx nflEnvEx 2025).2.1 = nflInFlightStateEx ∧
    (nflApiData false nflInFlightStateEx nflEnvEx 2025).1 = nflEnvEx.immediate ∧
    startBackgroundScheduleFetch 2025 ncaafbInFlightStateEx = (ncaafbInFlightStateEx, []) :=
  season_fetch_dedup_in_flight false nflInFlightStateEx nflEnvEx 2025
    ncaafbInFlightStateEx rfl rfl rfl (by decide)

/-- Claim C2, counterexample: a live-manager poll on a fresh NCAAFB manager
starts the season-scale background fetch thread and performs the
yesterday-through-plus-seven-days immediate-window fetch rather than a
current-day-only fetch; the NFL live poll likewise submits a season-scale
background fetch request. -/
theorem live_poll_starts_season_machinery :
    (ncaafbFetchData true ncaafbFreshStateEx ncaafbEnvEx 2025).2.2.contains
      (FetchAction.spawnSeasonThread 2025) = true ∧
    (ncaafbFetchData true ncaafbFreshStateEx ncaafbEnvEx 2025).2.1.backgroundFetching
      = [2025] ∧
    (ncaafbFetchData true ncaafbFreshStateEx ncaafbEnvEx 2025).2.2.contains
      FetchAction.todaysGamesFetch = false ∧
    (ncaafbFetchData true ncaafbFreshStateEx ncaafbEnvEx 2025).2.2.contains
      (FetchAction.immediateWindowFetch (-1) 7) = true ∧
    (nflFetchData true nflFreshStateEx nflEnvEx 2025).2.2.contains
      (FetchAction.submitSeasonFetch "nfl" 2025) = true := by
  refine ⟨?_, ?_, ?_, ?_, ?_⟩ <;> decide

/-- Claim C2 (amended): every live poll bypasses the season cache — the NFL
and NCAAFB live managers dispatch to their season-schedule function with
`use_cache=False`, which never reads the cache, and the NBA live manager
dispatches to the current-day-only `_fetch_todays_games` — but the NFL and
NCAAFB live polls do invoke the season-scale background machinery: with
nothing in flight the NFL live poll submits a background season fetch and
performs the yesterday-through-plus-seven-days window fetch instead of a
current-day-only fetch (the NCAAFB counterpart is the counterexample). -/
theorem live_fetch_bypasses_season_cache (st : NFLState) (env : NFLEnv) (year : Int)
    (st2 : NCAAFBState) (env2 : NCAAFBEnv) (todayResp : Option (List GameEvent)) :
    ((nflFetchData true st env year).2.2.all (fun a => !(isCacheRead a)) = true) ∧
    ((ncaafbFetchData true st2 env2 year).2.2.all (fun a => !(isCacheRead a)) = true) ∧
    nbaFetchData true todayResp env year = fetchTodaysGames todayResp ∧
    (st.tracked = false → env.backgroundEnabled = true →
      (nflFetchData true st env year).2.2.contains
        (FetchAction.submitSeasonFetch "nfl" year) = true ∧
      (nflFetchData true st env year).2.2.contains
        (FetchAction.immediateWindowFetch (-1) 7) = true) := by
  obtain ⟨tr, res⟩ := st
  obtain ⟨bg, cached, imm, sresp⟩ := env
  obtain ⟨fetching⟩ := st2
  obtain ⟨cached2, imm2⟩ := env2
  refine ⟨?_, ?_, rfl, ?_⟩
  · cases bg <;> cases tr <;>
      rcases res with _ | ⟨_ | _, evs | evs | _⟩ <;>
      simp [nflFetchData, nflApiData, getPartialNFLData, nflApiDataSync, isCacheRead]
  · have hsp : ∀ a ∈ (startBackgroundScheduleFetch year ⟨fetching⟩).2,
        isCacheRead a = false := by
      unfold startBackgroundScheduleFetch
      split
      · intro a ha
        cases ha
      · intro a ha
        rw [List.mem_singleton] at ha
        subst ha
        rfl
    have hact : (ncaafbFetchData true ⟨fetching⟩ ⟨cached2, imm2⟩ year).2.2 =
        (startBackgroundScheduleFetch year ⟨fetching⟩).2 ++
          [FetchAction.immediateWindowFetch (-1) 7] := by
      unfold ncaafbFetchData ncaafbApiData
      cases imm2 <;> rfl
    rw [hact, List.all_append]
    have h1 : ((startBackgroundScheduleFetch year ⟨fetching⟩).2.all
        fun a => !(isCacheRead a)) = true := by
      rw [List.all_eq_true]
      intro a ha
      rw [hsp a ha]
      rfl
    rw [h1]
    rfl
  · intro htr hbg
    have htr2 : tr = false := htr
    have hbg2 : bg = true := hbg
    subst htr2
    subst hbg2
    rcases cached with _ | (evs | evs | _) <;>
      simp [nflFetchData, nflApiData, getPartialNFLData]

/-- Claim C2, witness: the amended facts evaluated on a fresh NFL state,
discharging the implication about the background submission. -/
theorem live_fetch_bypasses_season_cache_check :
    (nflFetchData true nflFreshStateEx nflEnvEx 2025).2.2.contains
      (FetchAction.submitSeasonFetch "nfl" 2025) = true ∧
    (nflFetchData true nflFreshStateEx nflEnvEx 2025).2.2.contains
      (FetchAction.immediateWindowFetch (-1) 7) = true :=
  (live_fetch_bypasses_season_cache nflFreshStateEx nflEnvEx 2025 ncaafbFreshStateEx
    ncaafbEnvEx (some [])).2.2.2 rfl rfl

end LEDMatrix
